import Mathlib

/-!
Verification of the progression core of the xiuxian plugin.

The Python source is embedded shallowly: machine integers are `Int`
(Python ints are unbounded, so no wraparound modelling is needed),
Python floats are modelled as `ℚ`, `random.random()` / `random.uniform`
/ `random.randint` draws are passed in as explicit parameters, and the
in-place mutations on `UserProfile` become pure state transformers.
Python `//` (floor division) is `Int.fdiv`; Python `int()` truncates
toward zero (`pytrunc`).
-/

namespace Xiuxian

/-- One row of the `REALMS` table in `utils/constants.py`. -/
structure Realm where
  name : String
  level : Int
  max_exp : Int
  power_base : Int
deriving DecidableEq

/-- The `REALMS` constant from `utils/constants.py` lines 4-15. -/
def REALMS : List Realm :=
  [⟨"练气期", 1, 100, 10⟩,
   ⟨"筑基期", 2, 300, 30⟩,
   ⟨"金丹期", 3, 800, 80⟩,
   ⟨"元婴期", 4, 2000, 200⟩,
   ⟨"化神期", 5, 5000, 500⟩,
   ⟨"炼虚期", 6, 12000, 1200⟩,
   ⟨"合体期", 7, 30000, 3000⟩,
   ⟨"大乘期", 8, 80000, 8000⟩,
   ⟨"渡劫期", 9, 200000, 20000⟩,
   ⟨"仙人境", 10, 999999999, 50000⟩]

/-- `models/user.py` `CultivationData` (timestamps as integral seconds). -/
structure CultivationData where
  realm_level : Int
  experience : Int
  spiritual_power : Int
  cultivation_points : Int
  breakthrough_attempts : Int
  last_cultivation_time : Option Int
  last_breakthrough_time : Option Int
deriving DecidableEq

/-- `models/user.py` `UserStats`. -/
structure UserStats where
  strength : Int
  agility : Int
  intelligence : Int
  constitution : Int
  luck : Int
  attack_power : Int
  defense_power : Int
  max_hp : Int
  current_hp : Int
deriving DecidableEq

/-- `models/user.py` `UserProfile`, restricted to the fields the
progression core reads or writes (`battle_records` is split into its
two counters). -/
structure UserProfile where
  cultivation : CultivationData
  stats : UserStats
  personality_traits : List String
  wins : Int
  losses : Int
deriving DecidableEq

/-- `UserStats.calculate_combat_power` (`models/user.py` lines 59-62). -/
def calculate_combat_power (s : UserStats) : Int :=
  s.strength * 2 + s.agility + s.intelligence + s.constitution +
    s.attack_power + s.defense_power

/-- `UserProfile.get_combat_power` (`models/user.py` lines 129-131). -/
def get_combat_power (u : UserProfile) : Int :=
  calculate_combat_power u.stats

/-- `GameEngine.get_realm_info` (`core/game_engine.py` lines 53-58):
first realm whose `level` equals the argument, else `None`. -/
def get_realm_info (realm_level : Int) : Option Realm :=
  REALMS.find? (fun r => r.level == realm_level)

/-- `UserProfile.get_realm_name` (`models/user.py` lines 121-127):
falls back to the unknown-realm string when no table row matches. -/
def get_realm_name (u : UserProfile) : String :=
  match get_realm_info u.cultivation.realm_level with
  | some r => r.name
  | none => "未知境界"

/-- `GameEngine.can_breakthrough` (`core/game_engine.py` lines 60-67). -/
def can_breakthrough (u : UserProfile) : Bool :=
  match get_realm_info u.cultivation.realm_level with
  | none => false
  | some realm => decide (realm.max_exp ≤ u.cultivation.experience)

/-- Python `int()` applied to a float: truncation toward zero. -/
def pytrunc (q : ℚ) : Int :=
  if 0 ≤ q then ⌊q⌋ else ⌈q⌉

/-- `GameEngine.calculate_cultivation_exp` (`core/game_engine.py`
lines 16-34); `random_factor` stands for the `uniform(0.8, 1.5)` draw. -/
def calculate_cultivation_exp (base_exp : Int) (random_factor : ℚ) (u : UserProfile) : Int :=
  let realm_bonus : ℚ := (u.cultivation.realm_level : ℚ) * (1/10)
  let trait_bonus : ℚ := 1 +
    (if "勤奋刻苦" ∈ u.personality_traits then (2/10 : ℚ) else 0) +
    (if "天赋异禀" ∈ u.personality_traits then (3/10 : ℚ) else 0)
  max 1 (pytrunc ((base_exp : ℚ) * (1 + realm_bonus) * trait_bonus * random_factor))

/-- `GameEngine.calculate_breakthrough_success_rate`
(`core/game_engine.py` lines 36-51). -/
def calculate_breakthrough_success_rate (base_rate : ℚ) (u : UserProfile) : ℚ :=
  let attempt_bonus : ℚ := min (1/10) ((u.cultivation.breakthrough_attempts : ℚ) * (2/100))
  let trait_bonus : ℚ :=
    (if "意志坚定" ∈ u.personality_traits then (1/10 : ℚ) else 0) +
    (if "运气极佳" ∈ u.personality_traits then (15/100 : ℚ) else 0)
  min (95/100) (base_rate + attempt_bonus + trait_bonus)

/-- `GameEngine._upgrade_stats_on_breakthrough` (`core/game_engine.py`
lines 100-121); the five deltas stand for the `randint` draws. -/
def upgrade_stats_on_breakthrough (ds da di dc dl : Int) (u : UserProfile) : UserProfile :=
  let s0 := u.stats
  let s1 : UserStats :=
    { s0 with
      strength := s0.strength + ds
      agility := s0.agility + da
      intelligence := s0.intelligence + di
      constitution := s0.constitution + dc
      luck := s0.luck + dl }
  let new_max_hp := s1.constitution * 10 + u.cultivation.realm_level * 50
  let s2 : UserStats :=
    { s1 with
      max_hp := new_max_hp
      current_hp := new_max_hp
      attack_power := s1.strength * 2 + u.cultivation.realm_level * 10
      defense_power := s1.constitution + u.cultivation.realm_level * 5 }
  { u with stats := s2 }

/-- Result payload of `GameEngine.perform_breakthrough`. -/
structure BreakthroughResult where
  success : Bool
  new_realm : Option Realm
  exp_lost : Int
deriving DecidableEq

/-- `GameEngine.perform_breakthrough` (`core/game_engine.py`
lines 69-98); `r` is the `random.random()` draw, `ds`..`dl` the
stat-delta draws, `now` the current timestamp. -/
def perform_breakthrough (base_rate r : ℚ) (ds da di dc dl now : Int)
    (u : UserProfile) : UserProfile × BreakthroughResult :=
  let success := r < calculate_breakthrough_success_rate base_rate u
  let u1 : UserProfile :=
    { u with cultivation :=
      { u.cultivation with
        breakthrough_attempts := u.cultivation.breakthrough_attempts + 1
        last_breakthrough_time := some now } }
  if success then
    let u2 : UserProfile :=
      { u1 with cultivation :=
        { u1.cultivation with
          realm_level := u1.cultivation.realm_level + 1
          experience := 0
          breakthrough_attempts := 0 } }
    let u3 := upgrade_stats_on_breakthrough ds da di dc dl u2
    (u3, ⟨true, get_realm_info u3.cultivation.realm_level, 0⟩)
  else
    let exp_loss := Int.fdiv u1.cultivation.experience 10
    let u2 : UserProfile :=
      { u1 with cultivation :=
        { u1.cultivation with
          experience := max 0 (u1.cultivation.experience - exp_loss) } }
    (u2, ⟨false, none, exp_loss⟩)

/-- The win-rate computation inside `BattleSystem.calculate_battle_result`
(`systems/battle_system.py` lines 20-26): the ratio term is clamped to
[0.05, 0.95] first, the luck term is added, then the sum is clamped
again. `luck_delta` stands for `attacker.stats.luck - defender.stats.luck`. -/
def pvp_win_rate (attacker_power defender_power luck_delta : Int) : ℚ :=
  let power_ratio : ℚ := (attacker_power : ℚ) / ((defender_power : ℚ) + 1)
  let base_win_rate : ℚ := min (95/100) (max (5/100) (power_ratio / (power_ratio + 1)))
  let luck_factor : ℚ := (luck_delta : ℚ) * (1/100)
  max (5/100) (min (95/100) (base_win_rate + luck_factor))

/-- Modelled from the spec: section 4.1 `combatWinProbability`, written
exactly as the spec words it — `ratio/(ratio+1)` plus `luckDelta * 0.01`,
with a single clamp to [0.05, 0.95] at the end.  Used only to compare the
spec formula against `pvp_win_rate` as the code computes it. -/
def combatWinProbability_spec (attacker_power defender_power luck_delta : Int) : ℚ :=
  let ratio : ℚ := (attacker_power : ℚ) / ((defender_power : ℚ) + 1)
  let rate : ℚ := ratio / (ratio + 1)
  max (5/100) (min (95/100) (rate + (luck_delta : ℚ) * (1/100)))

/-- Result record of `BattleSystem.calculate_battle_result`. -/
structure BattleCalc where
  attacker_wins : Bool
  attacker_power : Int
  defender_power : Int
  win_rate : ℚ
  exp_reward : Int
  exp_loss : Int
deriving DecidableEq

/-- `BattleSystem.calculate_battle_result` (`systems/battle_system.py`
lines 15-47); `r` is the `random.random()` draw. -/
def calculate_battle_result (r : ℚ) (attacker defender : UserProfile) : BattleCalc :=
  let attacker_power := get_combat_power attacker
  let defender_power := get_combat_power defender
  let final_win_rate :=
    pvp_win_rate attacker_power defender_power (attacker.stats.luck - defender.stats.luck)
  if r < final_win_rate then
    ⟨true, attacker_power, defender_power, final_win_rate,
     max 10 (Int.fdiv defender_power 10), max 5 (Int.fdiv attacker_power 20)⟩
  else
    ⟨false, attacker_power, defender_power, final_win_rate,
     max 5 (Int.fdiv attacker_power 20), max 10 (Int.fdiv defender_power 10)⟩

/-- The state mutations of `BattleSystem.execute_pvp_battle`
(`systems/battle_system.py` lines 49-87): experience transfer and
win/loss counters on both records; returns (attacker, defender) after
the battle. -/
def execute_pvp_battle (r : ℚ) (attacker defender : UserProfile) :
    UserProfile × UserProfile :=
  let result := calculate_battle_result r attacker defender
  if result.attacker_wins then
    ({ attacker with
        cultivation := { attacker.cultivation with
          experience := attacker.cultivation.experience + result.exp_reward }
        wins := attacker.wins + 1 },
     { defender with
        cultivation := { defender.cultivation with
          experience := max 0 (defender.cultivation.experience - result.exp_loss) }
        losses := defender.losses + 1 })
  else
    ({ attacker with
        cultivation := { attacker.cultivation with
          experience := max 0 (attacker.cultivation.experience - result.exp_loss) }
        losses := attacker.losses + 1 },
     { defender with
        cultivation := { defender.cultivation with
          experience := defender.cultivation.experience + result.exp_reward }
        wins := defender.wins + 1 })

/-- The win-rate computation inside `BattleSystem.fight_monster`
(`systems/battle_system.py` lines 125-131): the ratio term is clamped to
[0.1, 0.9], and the flat +0.1 for the fortunate trait is added AFTER the
clamp, with no further clamp. -/
def monster_win_rate (user_power monster_power : Int) (fortunate : Bool) : ℚ :=
  let power_ratio : ℚ := (user_power : ℚ) / ((monster_power : ℚ) + 1)
  let win_rate : ℚ := min (9/10) (max (1/10) (power_ratio / (power_ratio + 1)))
  if fortunate then win_rate + 1/10 else win_rate

/-- Result payload of `BattleSystem.fight_monster`. -/
structure MonsterFightResult where
  victory : Bool
  exp_gained : Int
  exp_lost : Int
  hp_lost : Int
deriving DecidableEq

/-- The state mutations of `BattleSystem.fight_monster`
(`systems/battle_system.py` lines 120-165); `monster_power` is the
generated monster's power and `r` the outcome draw. -/
def fight_monster (r : ℚ) (monster_power : Int) (u : UserProfile) :
    UserProfile × MonsterFightResult :=
  let user_power := get_combat_power u
  let win_rate := monster_win_rate user_power monster_power
    ("运气极佳" ∈ u.personality_traits)
  if r < win_rate then
    let exp_reward := max 15 (Int.fdiv monster_power 8)
    ({ u with cultivation := { u.cultivation with
        experience := u.cultivation.experience + exp_reward } },
     ⟨true, exp_reward, 0, 0⟩)
  else
    let exp_loss := max 5 (Int.fdiv u.cultivation.experience 20)
    let hp_loss := max 10 (Int.fdiv u.stats.max_hp 10)
    ({ u with
        cultivation := { u.cultivation with
          experience := max 0 (u.cultivation.experience - exp_loss) }
        stats := { u.stats with
          current_hp := max 1 (u.stats.current_hp - hp_loss) } },
     ⟨false, 0, exp_loss, hp_loss⟩)

/-- A cultivate-event payload as consumed by
`GameEngine.apply_event_rewards`: an optional reward dict and an
optional penalty dict, each a (type, value) pair. -/
structure GEEvent where
  has_reward : Bool
  reward_type : String
  reward_value : Int
  has_penalty : Bool
  penalty_type : String
  penalty_value : Int
deriving DecidableEq

/-- `GameEngine.apply_event_rewards` (`core/game_engine.py` lines
221-246): string-keyed dispatch on the reward and penalty kinds. -/
def apply_event_rewards (u : UserProfile) (e : GEEvent) : UserProfile :=
  let u1 :=
    if e.has_reward then
      if e.reward_type = "exp" then
        { u with cultivation := { u.cultivation with
            experience := u.cultivation.experience + e.reward_value } }
      else if e.reward_type = "cultivation_points" then
        { u with cultivation := { u.cultivation with
            cultivation_points := u.cultivation.cultivation_points + e.reward_value } }
      else if e.reward_type = "hp" then
        { u with stats := { u.stats with
            current_hp := min u.stats.max_hp (u.stats.current_hp + e.reward_value) } }
      else u
    else u
  if e.has_penalty then
    if e.penalty_type = "exp" then
      { u1 with cultivation := { u1.cultivation with
          experience := max 0 (u1.cultivation.experience - e.penalty_value) } }
    else if e.penalty_type = "hp" then
      { u1 with stats := { u1.stats with
          current_hp := max 1 (u1.stats.current_hp - e.penalty_value) } }
    else u1
  else u1

/-- An adventure-event payload as consumed by
`EventSystem._apply_event_effects`: the event type string plus the
fields the dispatcher reads for each type. -/
structure AdvEvent where
  type : String
  reward_type : String
  reward_value : Int
  exp_gain : Int
  penalty_type : String
  penalty_value : Int
deriving DecidableEq

/-- `EventSystem._apply_event_effects` (`systems/event_system.py`
lines 242-276). -/
def apply_event_effects (u : UserProfile) (e : AdvEvent) : UserProfile :=
  if e.type = "encounter" then
    if e.reward_type = "exp" then
      { u with cultivation := { u.cultivation with
          experience := u.cultivation.experience + e.reward_value } }
    else if e.reward_type = "cultivation_points" then
      { u with cultivation := { u.cultivation with
          cultivation_points := u.cultivation.cultivation_points + e.reward_value } }
    else if e.reward_type = "spiritual_power" then
      { u with cultivation := { u.cultivation with
          spiritual_power := min (u.cultivation.spiritual_power + e.reward_value)
            (u.stats.intelligence * 10) } }
    else u
  else if e.type = "cultivation" then
    { u with cultivation := { u.cultivation with
        experience := u.cultivation.experience + e.exp_gain } }
  else if e.type = "disaster" then
    if e.penalty_type = "exp" then
      { u with cultivation := { u.cultivation with
          experience := max 0 (u.cultivation.experience - e.penalty_value) } }
    else if e.penalty_type = "hp" then
      { u with stats := { u.stats with
          current_hp := max 1 (u.stats.current_hp - e.penalty_value) } }
    else if e.penalty_type = "spiritual_power" then
      { u with cultivation := { u.cultivation with
          spiritual_power := max 0 (u.cultivation.spiritual_power - e.penalty_value) } }
    else u
  else u

/-- The attribute dict of a pill as read by `EquipmentSystem.use_pill`
(missing keys default to 0). -/
structure PillAttrs where
  healing : Int
  exp_bonus : Int
  spiritual_power : Int
deriving DecidableEq

/-- `EquipmentSystem.use_pill` (`systems/equipment_system.py`
lines 147-170). -/
def use_pill (u : UserProfile) (p : PillAttrs) : UserProfile :=
  let u1 :=
    if 0 < p.healing then
      { u with stats := { u.stats with
          current_hp := min u.stats.max_hp (u.stats.current_hp + p.healing) } }
    else u
  let u2 :=
    if 0 < p.exp_bonus then
      { u1 with cultivation := { u1.cultivation with
          experience := u1.cultivation.experience + p.exp_bonus } }
    else u1
  if 0 < p.spiritual_power then
    { u2 with cultivation := { u2.cultivation with
        spiritual_power := min (u2.cultivation.spiritual_power + p.spiritual_power)
          (u2.stats.intelligence * 10) } }
  else u2

/-- `EquipmentSystem.update_user_stats_from_equipment`
(`systems/equipment_system.py` lines 172-186), parameterized by the
summed equipment bonuses from `calculate_equipment_effects`. -/
def update_user_stats_from_equipment (attack_bonus defense_bonus hp_bonus : Int)
    (u : UserProfile) : UserProfile :=
  let base_attack := u.stats.strength * 2 + u.cultivation.realm_level * 10
  let base_defense := u.stats.constitution + u.cultivation.realm_level * 5
  let base_hp := u.stats.constitution * 10 + u.cultivation.realm_level * 50
  let new_max_hp := base_hp + hp_bonus
  { u with stats := { u.stats with
      attack_power := base_attack + attack_bonus
      defense_power := base_defense + defense_bonus
      max_hp := new_max_hp
      current_hp := min u.stats.current_hp new_max_hp } }

/-- The state mutations of `CultivationSystem.perform_cultivation`
(`systems/cultivation_system.py` lines 48-78): add the computed
experience, stamp the cultivation time, then apply the generated
event's rewards. -/
def perform_cultivation (base_exp : Int) (random_factor : ℚ) (event : GEEvent)
    (now : Int) (u : UserProfile) : UserProfile :=
  let exp_gained := calculate_cultivation_exp base_exp random_factor u
  let u1 : UserProfile :=
    { u with cultivation := { u.cultivation with
        experience := u.cultivation.experience + exp_gained
        last_cultivation_time := some now } }
  apply_event_rewards u1 event

/-- The cooldown gate shared by `CultivationSystem.can_cultivate`
(`systems/cultivation_system.py` lines 16-25) and
`EventSystem.can_adventure` (`systems/event_system.py` lines 16-29):
allowed when no previous timestamp exists or `now` has reached
`last + interval`. -/
def can_act (last : Option Int) (interval_seconds now : Int) : Bool :=
  match last with
  | none => true
  | some last_time => decide (last_time + interval_seconds ≤ now)

/-- The quality-weight selection in `EquipmentSystem.generate_equipment`
(`systems/equipment_system.py` lines 21-27), with the source's exact
branch order: `if user_level >= 5: ... elif user_level >= 8: ...`. -/
def quality_weights (user_level : Int) : List ℚ :=
  if 5 ≤ user_level then [2/10, 25/100, 25/100, 2/10, 8/100, 2/100]
  else if 8 ≤ user_level then [1/10, 15/100, 25/100, 3/10, 15/100, 5/100]
  else [4/10, 3/10, 2/10, 8/100, 15/1000, 5/1000]

/-- The weight profile written for tier >= 8 characters
(`systems/equipment_system.py` line 27). -/
def tier8_quality_weights : List ℚ := [1/10, 15/100, 25/100, 3/10, 15/100, 5/100]

/-- The module-level names defined by `utils/constants.py`. -/
def utils_constants_defined_names : List String :=
  ["REALMS", "EQUIPMENT_TYPES", "EQUIPMENT_QUALITY", "SKILL_TYPES", "EVENT_TYPES",
   "DEFAULT_COOLDOWN_TIMES", "DEFAULT_LLM_CONFIG", "DEFAULT_GAME_BALANCE",
   "get_cooldown_time", "get_game_balance_value"]

/-- The names `systems/event_system.py` line 6 imports from
`utils.constants`. -/
def event_system_import_from_constants : List String :=
  ["COOLDOWN_TIMES", "EVENT_TYPES"]

/-- A Python `from M import a, b` statement succeeds exactly when every
imported name is defined in module M; otherwise it raises ImportError. -/
def python_from_import_ok (module_names imported : List String) : Bool :=
  imported.all (fun n => module_names.contains n)

/-- Number of arguments (after `self`) of `BattleSystem.__init__`
(`systems/battle_system.py` line 10). -/
def battle_system_init_arity : Nat := 3

/-- Number of arguments passed to `BattleSystem(...)` by
`EventSystem._generate_battle_event` (`systems/event_system.py`
line 108). -/
def generate_battle_event_call_arity : Nat := 2

/-- The record invariants of section 3 of the spec, as a predicate on one
character record: experience nonnegative, tier at least 1, health within
[0, max health] with max health positive, spiritual power at most
intelligence * 10, and all five base stats nonnegative. -/
def Inv (u : UserProfile) : Prop :=
  0 ≤ u.cultivation.experience ∧
  1 ≤ u.cultivation.realm_level ∧
  0 ≤ u.cultivation.spiritual_power ∧
  u.cultivation.spiritual_power ≤ u.stats.intelligence * 10 ∧
  0 ≤ u.stats.current_hp ∧
  u.stats.current_hp ≤ u.stats.max_hp ∧
  1 ≤ u.stats.max_hp ∧
  0 ≤ u.stats.strength ∧ 0 ≤ u.stats.agility ∧ 0 ≤ u.stats.intelligence ∧
  0 ≤ u.stats.constitution ∧ 0 ≤ u.stats.luck

/-- A concrete character record used by witnesses: the default
new-character values of `models/user.py` with experience 100 (the
tier-1 threshold) and no traits. -/
def sampleProfile : UserProfile :=
  { cultivation :=
    { realm_level := 1, experience := 100, spiritual_power := 100,
      cultivation_points := 0, breakthrough_attempts := 0,
      last_cultivation_time := none, last_breakthrough_time := none },
    stats :=
    { strength := 10, agility := 10, intelligence := 10, constitution := 10,
      luck := 10, attack_power := 0, defense_power := 0, max_hp := 100, current_hp := 100 },
    personality_traits := [], wins := 0, losses := 0 }

/-- The sample record placed at the highest defined realm (level 10). -/
def sampleProfileRealm10 : UserProfile :=
  { sampleProfile with cultivation :=
    { sampleProfile.cultivation with realm_level := 10 } }

/-- A concrete cultivate-event payload: experience reward 5, health
penalty 3 (the shape of `GameEngine` generated events). -/
def sampleGEEvent : GEEvent := ⟨true, "exp", 5, true, "hp", 3⟩

/-- A concrete adventure-event payload: a disaster draining 30 spiritual
power, as generated by `EventSystem._generate_disaster_event`. -/
def sampleAdvEvent : AdvEvent := ⟨"disaster", "", 0, 0, "spiritual_power", 30⟩

/-- A concrete pill: healing 20, experience bonus 10, spiritual power 15. -/
def samplePill : PillAttrs := ⟨20, 10, 15⟩

/-- Python floor division by a nonnegative divisor agrees with Euclidean
division, which the omega tactic understands. -/
theorem fdiv_nonneg_lit (a b : Int) (hb : 0 ≤ b) : Int.fdiv a b = a / b :=
  Int.fdiv_eq_ediv a hb

/-- Breakthrough preserves the record invariants and never lowers the tier. -/
theorem inv_perform_breakthrough (base_rate r : ℚ) (ds da di dc dl now : Int) (u : UserProfile)
    (hds : 0 ≤ ds) (hda : 0 ≤ da) (hdi : 0 ≤ di) (hdc : 0 ≤ dc) (hdl : 0 ≤ dl)
    (h : Inv u) :
    Inv (perform_breakthrough base_rate r ds da di dc dl now u).1 ∧
    u.cultivation.realm_level ≤ (perform_breakthrough base_rate r ds da di dc dl now u).1.cultivation.realm_level := by
  obtain ⟨h1, h2, h3, h4, h5, h6, h7, h8, h9, h10, h11, h12⟩ := h
  by_cases hc : r < calculate_breakthrough_success_rate base_rate u
  · simp only [perform_breakthrough, upgrade_stats_on_breakthrough, if_pos hc, Inv]
    omega
  · simp only [perform_breakthrough, if_neg hc, Inv,
      fdiv_nonneg_lit _ _ (by norm_num : (0:Int) ≤ 10)]
    omega

/-- Applying a cultivate-event payload preserves the record invariants. -/
theorem inv_apply_event_rewards (u : UserProfile) (e : GEEvent)
    (hrv : 0 ≤ e.reward_value) (hpv : 0 ≤ e.penalty_value) (h : Inv u) :
    Inv (apply_event_rewards u e) ∧
    u.cultivation.realm_level ≤ (apply_event_rewards u e).cultivation.realm_level := by
  obtain ⟨h1, h2, h3, h4, h5, h6, h7, h8, h9, h10, h11, h12⟩ := h
  simp only [apply_event_rewards, Inv]
  repeat' split
  all_goals ((try dsimp only); omega)

/-- Applying an adventure-event payload preserves the record invariants. -/
theorem inv_apply_event_effects (u : UserProfile) (e : AdvEvent)
    (hrv : 0 ≤ e.reward_value) (heg : 0 ≤ e.exp_gain) (hpv : 0 ≤ e.penalty_value)
    (h : Inv u) :
    Inv (apply_event_effects u e) ∧
    u.cultivation.realm_level ≤ (apply_event_effects u e).cultivation.realm_level := by
  obtain ⟨h1, h2, h3, h4, h5, h6, h7, h8, h9, h10, h11, h12⟩ := h
  simp only [apply_event_effects, Inv]
  repeat' split
  all_goals ((try dsimp only); omega)

/-- Cultivation preserves the record invariants. -/
theorem inv_perform_cultivation (base_exp : Int) (random_factor : ℚ) (e : GEEvent)
    (now : Int) (u : UserProfile)
    (hrv : 0 ≤ e.reward_value) (hpv : 0 ≤ e.penalty_value) (h : Inv u) :
    Inv (perform_cultivation base_exp random_factor e now u) ∧
    u.cultivation.realm_level ≤ (perform_cultivation base_exp random_factor e now u).cultivation.realm_level := by
  obtain ⟨h1, h2, h3, h4, h5, h6, h7, h8, h9, h10, h11, h12⟩ := h
  simp only [perform_cultivation, calculate_cultivation_exp]
  exact inv_apply_event_rewards _ e hrv hpv
    ⟨by dsimp only; omega, h2, h3, h4, h5, h6, h7, h8, h9, h10, h11, h12⟩

/-- PvP battle preserves the record invariants on both participants. -/
theorem inv_execute_pvp_battle (r : ℚ) (atk dfn : UserProfile)
    (hatk : Inv atk) (hdfn : Inv dfn) :
    Inv (execute_pvp_battle r atk dfn).1 ∧ Inv (execute_pvp_battle r atk dfn).2 ∧
    atk.cultivation.realm_level ≤ (execute_pvp_battle r atk dfn).1.cultivation.realm_level ∧
    dfn.cultivation.realm_level ≤ (execute_pvp_battle r atk dfn).2.cultivation.realm_level := by
  obtain ⟨a1, a2, a3, a4, a5, a6, a7, a8, a9, a10, a11, a12⟩ := hatk
  obtain ⟨d1, d2, d3, d4, d5, d6, d7, d8, d9, d10, d11, d12⟩ := hdfn
  simp only [execute_pvp_battle, calculate_battle_result, Inv]
  repeat' split
  all_goals ((try dsimp only); omega)

/-- A monster fight preserves the record invariants. -/
theorem inv_fight_monster (r : ℚ) (monster_power : Int) (u : UserProfile) (h : Inv u) :
    Inv (fight_monster r monster_power u).1 ∧
    u.cultivation.realm_level ≤ (fight_monster r monster_power u).1.cultivation.realm_level := by
  obtain ⟨h1, h2, h3, h4, h5, h6, h7, h8, h9, h10, h11, h12⟩ := h
  simp only [fight_monster, Inv]
  repeat' split
  all_goals ((try dsimp only); omega)

/-- Using a pill preserves the record invariants. -/
theorem inv_use_pill (u : UserProfile) (p : PillAttrs) (h : Inv u) :
    Inv (use_pill u p) ∧
    u.cultivation.realm_level ≤ (use_pill u p).cultivation.realm_level := by
  obtain ⟨h1, h2, h3, h4, h5, h6, h7, h8, h9, h10, h11, h12⟩ := h
  simp only [use_pill, Inv]
  repeat' split
  all_goals ((try dsimp only); omega)

/-- Re-deriving stats from equipment preserves the record invariants. -/
theorem inv_update_equipment (attack_bonus defense_bonus hp_bonus : Int) (u : UserProfile)
    (hab : 0 ≤ attack_bonus) (hdb : 0 ≤ defense_bonus) (hhb : 0 ≤ hp_bonus)
    (h : Inv u) :
    Inv (update_user_stats_from_equipment attack_bonus defense_bonus hp_bonus u) ∧
    u.cultivation.realm_level ≤ (update_user_stats_from_equipment attack_bonus defense_bonus hp_bonus u).cultivation.realm_level := by
  obtain ⟨h1, h2, h3, h4, h5, h6, h7, h8, h9, h10, h11, h12⟩ := h
  simp only [update_user_stats_from_equipment, Inv]
  omega


/-- Claim C1: a breakthrough attempt on an eligible record (experience at
the current tier's threshold): on a success draw the tier increases by
exactly 1, experience resets to 0, the attempt counter resets to 0, and
the five base stats and the derived combat stats are recomputed; on a
failure draw the tier is unchanged, experience drops by exactly
experience // 10, and the attempt counter increments by 1. -/
theorem breakthrough_transition_spec (base_rate r1 r2 : ℚ) (ds da di dc dl now : Int)
    (u : UserProfile)
    (hexp : 0 ≤ u.cultivation.experience)
    (helig : can_breakthrough u = true)
    (hsucc : r1 < calculate_breakthrough_success_rate base_rate u)
    (hfail : ¬ r2 < calculate_breakthrough_success_rate base_rate u) :
    ((perform_breakthrough base_rate r1 ds da di dc dl now u).1.cultivation.realm_level
        = u.cultivation.realm_level + 1 ∧
     (perform_breakthrough base_rate r1 ds da di dc dl now u).1.cultivation.experience = 0 ∧
     (perform_breakthrough base_rate r1 ds da di dc dl now u).1.cultivation.breakthrough_attempts = 0 ∧
     (perform_breakthrough base_rate r1 ds da di dc dl now u).1.stats.strength = u.stats.strength + ds ∧
     (perform_breakthrough base_rate r1 ds da di dc dl now u).1.stats.agility = u.stats.agility + da ∧
     (perform_breakthrough base_rate r1 ds da di dc dl now u).1.stats.intelligence = u.stats.intelligence + di ∧
     (perform_breakthrough base_rate r1 ds da di dc dl now u).1.stats.constitution = u.stats.constitution + dc ∧
     (perform_breakthrough base_rate r1 ds da di dc dl now u).1.stats.luck = u.stats.luck + dl ∧
     (perform_breakthrough base_rate r1 ds da di dc dl now u).1.stats.max_hp
        = (u.stats.constitution + dc) * 10 + (u.cultivation.realm_level + 1) * 50 ∧
     (perform_breakthrough base_rate r1 ds da di dc dl now u).1.stats.current_hp
        = (perform_breakthrough base_rate r1 ds da di dc dl now u).1.stats.max_hp ∧
     (perform_breakthrough base_rate r1 ds da di dc dl now u).1.stats.attack_power
        = (u.stats.strength + ds) * 2 + (u.cultivation.realm_level + 1) * 10 ∧
     (perform_breakthrough base_rate r1 ds da di dc dl now u).1.stats.defense_power
        = (u.stats.constitution + dc) + (u.cultivation.realm_level + 1) * 5) ∧
    ((perform_breakthrough base_rate r2 ds da di dc dl now u).1.cultivation.realm_level
        = u.cultivation.realm_level ∧
     (perform_breakthrough base_rate r2 ds da di dc dl now u).1.cultivation.experience
        = u.cultivation.experience - Int.fdiv u.cultivation.experience 10 ∧
     (perform_breakthrough base_rate r2 ds da di dc dl now u).1.cultivation.breakthrough_attempts
        = u.cultivation.breakthrough_attempts + 1) := by
  constructor
  · simp only [perform_breakthrough, upgrade_stats_on_breakthrough, if_pos hsucc]
    repeat' constructor
    all_goals ((try dsimp only); omega)
  · simp only [perform_breakthrough, if_neg hfail,
      fdiv_nonneg_lit _ _ (by norm_num : (0:Int) ≤ 10)]
    repeat' constructor
    all_goals ((try dsimp only); omega)

/-- Claim C2: cultivate, breakthrough, event application (both engines),
PvP combat, monster combat, pill use and equipping all preserve the
record invariants: experience stays nonnegative, the tier never
decreases, current health stays within [0, max health], and spiritual
power never exceeds intelligence * 10. -/
theorem core_ops_preserve_invariants
    (base_exp : Int) (random_factor base_rate r : ℚ) (ge : GEEvent) (ae : AdvEvent)
    (pill : PillAttrs) (ds da di dc dl now : Int)
    (attack_bonus defense_bonus hp_bonus monster_power : Int)
    (u atk dfn : UserProfile)
    (hds : 0 ≤ ds) (hda : 0 ≤ da) (hdi : 0 ≤ di) (hdc : 0 ≤ dc) (hdl : 0 ≤ dl)
    (hger : 0 ≤ ge.reward_value) (hgep : 0 ≤ ge.penalty_value)
    (haer : 0 ≤ ae.reward_value) (haee : 0 ≤ ae.exp_gain) (haep : 0 ≤ ae.penalty_value)
    (hab : 0 ≤ attack_bonus) (hdb : 0 ≤ defense_bonus) (hhb : 0 ≤ hp_bonus)
    (hu : Inv u) (hatk : Inv atk) (hdfn : Inv dfn) :
    (Inv (perform_cultivation base_exp random_factor ge now u) ∧
      u.cultivation.realm_level ≤ (perform_cultivation base_exp random_factor ge now u).cultivation.realm_level) ∧
    (Inv (perform_breakthrough base_rate r ds da di dc dl now u).1 ∧
      u.cultivation.realm_level ≤ (perform_breakthrough base_rate r ds da di dc dl now u).1.cultivation.realm_level) ∧
    (Inv (apply_event_rewards u ge) ∧
      u.cultivation.realm_level ≤ (apply_event_rewards u ge).cultivation.realm_level) ∧
    (Inv (apply_event_effects u ae) ∧
      u.cultivation.realm_level ≤ (apply_event_effects u ae).cultivation.realm_level) ∧
    (Inv (execute_pvp_battle r atk dfn).1 ∧ Inv (execute_pvp_battle r atk dfn).2 ∧
      atk.cultivation.realm_level ≤ (execute_pvp_battle r atk dfn).1.cultivation.realm_level ∧
      dfn.cultivation.realm_level ≤ (execute_pvp_battle r atk dfn).2.cultivation.realm_level) ∧
    (Inv (fight_monster r monster_power u).1 ∧
      u.cultivation.realm_level ≤ (fight_monster r monster_power u).1.cultivation.realm_level) ∧
    (Inv (use_pill u pill) ∧
      u.cultivation.realm_level ≤ (use_pill u pill).cultivation.realm_level) ∧
    (Inv (update_user_stats_from_equipment attack_bonus defense_bonus hp_bonus u) ∧
      u.cultivation.realm_level ≤ (update_user_stats_from_equipment attack_bonus defense_bonus hp_bonus u).cultivation.realm_level) :=
  ⟨inv_perform_cultivation base_exp random_factor ge now u hger hgep hu,
   inv_perform_breakthrough base_rate r ds da di dc dl now u hds hda hdi hdc hdl hu,
   inv_apply_event_rewards u ge hger hgep hu,
   inv_apply_event_effects u ae haer haee haep hu,
   inv_execute_pvp_battle r atk dfn hatk hdfn,
   inv_fight_monster r monster_power u hu,
   inv_use_pill u pill hu,
   inv_update_equipment attack_bonus defense_bonus hp_bonus u hab hdb hhb hu⟩

/-- Claim C3 (the code contradicts it): the adventure action cannot even
start — `systems/event_system.py` imports `COOLDOWN_TIMES` from
`utils.constants`, but that module defines only `DEFAULT_COOLDOWN_TIMES`,
so the import raises ImportError; additionally
`EventSystem._generate_battle_event` constructs `BattleSystem` with 2
arguments where its initializer requires 3. -/
theorem adventure_import_error :
    python_from_import_ok utils_constants_defined_names event_system_import_from_constants = false ∧
    ¬ "COOLDOWN_TIMES" ∈ utils_constants_defined_names ∧
    "DEFAULT_COOLDOWN_TIMES" ∈ utils_constants_defined_names ∧
    generate_battle_event_call_arity ≠ battle_system_init_arity := by
  refine ⟨by decide, by decide, by decide, by decide⟩

/-- Claim C4 counterexample: with two default-stat characters (combat
power 50 each) and a draw on which the attacker loses, the winning
defender gains max(5, 50 // 20) = 5 experience — not
max(10, 50 // 10) = 10 as the claim states for every winner. -/
theorem pvp_exp_transfer_counterexample :
    (execute_pvp_battle 1 sampleProfile sampleProfile).2.wins = sampleProfile.wins + 1 ∧
    (execute_pvp_battle 1 sampleProfile sampleProfile).2.cultivation.experience = 105 ∧
    sampleProfile.cultivation.experience
        + max 10 (Int.fdiv (get_combat_power sampleProfile) 10) = 110 ∧
    (105 : Int) ≠ 110 := by
  have hr : ¬ (1:ℚ) < pvp_win_rate (get_combat_power sampleProfile)
      (get_combat_power sampleProfile)
      (sampleProfile.stats.luck - sampleProfile.stats.luck) := by
    norm_num [pvp_win_rate, get_combat_power, calculate_combat_power, sampleProfile]
  simp only [execute_pvp_battle, calculate_battle_result, if_neg hr, if_true, if_false]
  refine ⟨by decide, by decide, by decide, by decide⟩

/-- Claim C4 amended: when the attacker wins the winner gains
max(10, loserPower // 10) and the loser loses max(5, winnerPower // 20);
when the defender wins the winner gains max(5, loserPower // 20) and the
loser loses max(10, winnerPower // 10); in both cases the loser's
experience is floored at 0 and the winner's win counter and loser's loss
counter each increase by 1. -/
theorem pvp_exp_transfer_amended (r1 r2 : ℚ) (atk dfn : UserProfile)
    (hwin : r1 < pvp_win_rate (get_combat_power atk) (get_combat_power dfn)
      (atk.stats.luck - dfn.stats.luck))
    (hlose : ¬ r2 < pvp_win_rate (get_combat_power atk) (get_combat_power dfn)
      (atk.stats.luck - dfn.stats.luck)) :
    ((execute_pvp_battle r1 atk dfn).1.cultivation.experience
        = atk.cultivation.experience + max 10 (Int.fdiv (get_combat_power dfn) 10) ∧
     (execute_pvp_battle r1 atk dfn).2.cultivation.experience
        = max 0 (dfn.cultivation.experience - max 5 (Int.fdiv (get_combat_power atk) 20)) ∧
     0 ≤ (execute_pvp_battle r1 atk dfn).2.cultivation.experience ∧
     (execute_pvp_battle r1 atk dfn).1.wins = atk.wins + 1 ∧
     (execute_pvp_battle r1 atk dfn).2.losses = dfn.losses + 1) ∧
    ((execute_pvp_battle r2 atk dfn).2.cultivation.experience
        = dfn.cultivation.experience + max 5 (Int.fdiv (get_combat_power atk) 20) ∧
     (execute_pvp_battle r2 atk dfn).1.cultivation.experience
        = max 0 (atk.cultivation.experience - max 10 (Int.fdiv (get_combat_power dfn) 10)) ∧
     0 ≤ (execute_pvp_battle r2 atk dfn).1.cultivation.experience ∧
     (execute_pvp_battle r2 atk dfn).2.wins = dfn.wins + 1 ∧
     (execute_pvp_battle r2 atk dfn).1.losses = atk.losses + 1) := by
  constructor
  · simp only [execute_pvp_battle, calculate_battle_result, if_pos hwin, if_true, if_false]
    (try dsimp only)
    repeat' constructor
    all_goals ((try dsimp only); omega)
  · simp [execute_pvp_battle, calculate_battle_result, if_neg hlose]
    (try dsimp only)
    repeat' constructor
    all_goals ((try dsimp only); omega)

/-- Claim C5 counterexample: at attacker power 0, defender power 100,
luck delta 3, the code's win probability is 2/25 = 0.08 while the
claim's single-clamp formula gives 1/20 = 0.05: the code clamps the
ratio term to [0.05, 0.95] before adding the luck term and clamps again
afterwards. -/
theorem combat_win_probability_counterexample :
    pvp_win_rate 0 100 3 = 2/25 ∧ combatWinProbability_spec 0 100 3 = 1/20 ∧
    pvp_win_rate 0 100 3 ≠ combatWinProbability_spec 0 100 3 := by
  refine ⟨by norm_num [pvp_win_rate], by norm_num [combatWinProbability_spec], ?_⟩
  norm_num [pvp_win_rate, combatWinProbability_spec]

/-- Claim C5 amended: the PvP win probability equals the ratio term
clamped to [0.05, 0.95], plus luckDelta * 0.01, clamped again to
[0.05, 0.95]; in particular the result always lies within [0.05, 0.95]. -/
theorem combat_win_probability_amended (attacker_power defender_power luck_delta : Int)
    (hap : 0 ≤ attacker_power) (hdp : 0 ≤ defender_power) :
    pvp_win_rate attacker_power defender_power luck_delta
      = max (5/100) (min (95/100)
          (min (95/100) (max (5/100)
            (((attacker_power:ℚ)/((defender_power:ℚ)+1))
              / ((attacker_power:ℚ)/((defender_power:ℚ)+1) + 1)))
            + (luck_delta:ℚ) * (1/100))) ∧
    5/100 ≤ pvp_win_rate attacker_power defender_power luck_delta ∧
    pvp_win_rate attacker_power defender_power luck_delta ≤ 95/100 := by
  refine ⟨rfl, le_max_left _ _, ?_⟩
  unfold pvp_win_rate
  exact max_le (by norm_num) (min_le_left _ _)

/-- Claim C6 counterexample: with user power 1000, monster power 10 and
the fortunate trait, the monster-fight win probability is 1, exceeding
the claimed 0.9 cap: the +0.1 trait bonus is added after the clamp. -/
theorem monster_win_rate_counterexample :
    monster_win_rate 1000 10 true = 1 ∧ 9/10 < monster_win_rate 1000 10 true := by
  constructor <;> norm_num [monster_win_rate]

/-- Claim C6 amended: the monster-fight win probability is the
power-ratio value clamped to [0.1, 0.9], plus a flat +0.1 for the
fortunate trait added after the clamp, so the final value is bounded by
1.0 rather than 0.9; with user power 100, monster power 50 and the trait
the probability equals 100/151 + 0.1 (which is the clamped base plus
exactly 0.1). -/
theorem monster_win_rate_amended (user_power monster_power : Int)
    (hup : 0 ≤ user_power) (hmp : 0 ≤ monster_power) :
    monster_win_rate user_power monster_power true
      = min (9/10) (max (1/10) (((user_power:ℚ)/((monster_power:ℚ)+1))
          / ((user_power:ℚ)/((monster_power:ℚ)+1) + 1))) + 1/10 ∧
    monster_win_rate user_power monster_power false
      = min (9/10) (max (1/10) (((user_power:ℚ)/((monster_power:ℚ)+1))
          / ((user_power:ℚ)/((monster_power:ℚ)+1) + 1))) ∧
    monster_win_rate user_power monster_power true ≤ 1 ∧
    monster_win_rate user_power monster_power true
      = monster_win_rate user_power monster_power false + 1/10 ∧
    monster_win_rate 100 50 true = 100/151 + 1/10 := by
  refine ⟨rfl, rfl, ?_, rfl, by norm_num [monster_win_rate]⟩
  have h : monster_win_rate user_power monster_power true
      = min (9/10) (max (1/10) (((user_power:ℚ)/((monster_power:ℚ)+1))
          / ((user_power:ℚ)/((monster_power:ℚ)+1) + 1))) + 1/10 := rfl
  rw [h]
  have h2 := min_le_left (9/10 : ℚ) (max (1/10) (((user_power:ℚ)/((monster_power:ℚ)+1))
      / ((user_power:ℚ)/((monster_power:ℚ)+1) + 1)))
  linarith

/-- Claim C7: the advancement success rate equals
min(0.95, base + min(0.1, attempts * 0.02) + traitBonus), lies within
[base, 0.95] for any configured base in (0.1, 0.9) and nonnegative
attempt count, and is non-decreasing in the attempt count with traits
held fixed. -/
theorem breakthrough_success_rate_spec (base_rate : ℚ) (u : UserProfile) (a1 a2 : Int)
    (hb1 : 1/10 < base_rate) (hb2 : base_rate < 9/10)
    (hatt : 0 ≤ u.cultivation.breakthrough_attempts) (h12 : a1 ≤ a2) :
    calculate_breakthrough_success_rate base_rate u
      = min (95/100) (base_rate +
          min (1/10) ((u.cultivation.breakthrough_attempts : ℚ) * (2/100)) +
          ((if "意志坚定" ∈ u.personality_traits then (1/10:ℚ) else 0) +
           (if "运气极佳" ∈ u.personality_traits then (15/100:ℚ) else 0))) ∧
    base_rate ≤ calculate_breakthrough_success_rate base_rate u ∧
    calculate_breakthrough_success_rate base_rate u ≤ 95/100 ∧
    calculate_breakthrough_success_rate base_rate
        { u with cultivation := { u.cultivation with breakthrough_attempts := a1 } }
      ≤ calculate_breakthrough_success_rate base_rate
        { u with cultivation := { u.cultivation with breakthrough_attempts := a2 } } := by
  have htr : (0:ℚ) ≤ (if "意志坚定" ∈ u.personality_traits then (1/10:ℚ) else 0) +
      (if "运气极佳" ∈ u.personality_traits then (15/100:ℚ) else 0) := by
    split_ifs <;> norm_num
  refine ⟨rfl, ?_, ?_, ?_⟩
  · unfold calculate_breakthrough_success_rate
    (try dsimp only)
    have hab : (0:ℚ) ≤ min (1/10) ((u.cultivation.breakthrough_attempts : ℚ) * (2/100)) :=
      le_min (by norm_num) (mul_nonneg (by exact_mod_cast hatt) (by norm_num))
    exact le_min (by linarith) (by linarith)
  · unfold calculate_breakthrough_success_rate
    exact min_le_left _ _
  · unfold calculate_breakthrough_success_rate
    (try dsimp only)
    have hm : ((a1:ℚ)) * (2/100) ≤ ((a2:ℚ)) * (2/100) := by
      have hc : (a1:ℚ) ≤ (a2:ℚ) := by exact_mod_cast h12
      linarith
    have hmin : min (1/10:ℚ) ((a1:ℚ) * (2/100)) ≤ min (1/10) ((a2:ℚ) * (2/100)) :=
      min_le_min le_rfl hm
    exact min_le_min le_rfl (by linarith)

/-- Claim C8 (the code contradicts it): the `elif user_level >= 8`
branch is shadowed by the preceding `if user_level >= 5`, so characters
of tier 8 and above draw from the same weight profile as tier 5, and the
third, most top-heavy profile is unreachable at every tier. -/
theorem equipment_quality_tier8_dead_branch :
    quality_weights 8 = quality_weights 5 ∧
    quality_weights 8 ≠ tier8_quality_weights ∧
    ∀ lvl : Int, quality_weights lvl ≠ tier8_quality_weights := by
  refine ⟨by norm_num [quality_weights],
    by norm_num [quality_weights, tier8_quality_weights], ?_⟩
  intro lvl
  by_cases h5 : (5:Int) ≤ lvl
  · simp only [quality_weights, if_pos h5, tier8_quality_weights]
    norm_num
  · have h8 : ¬ (8:Int) ≤ lvl := by omega
    simp only [quality_weights, if_neg h5, if_neg h8, tier8_quality_weights]
    norm_num

/-- Claim C9: the cooldown gate allows an action exactly when no previous
timestamp exists or now has reached last + interval; it is false
immediately after an action, becomes true exactly at last + interval,
and is false at every earlier instant. -/
theorem cooldown_gate_spec (last : Option Int) (interval now t : Int) (hpos : 0 < interval) :
    (can_act last interval now = true ↔
      last = none ∨ ∃ t0, last = some t0 ∧ t0 + interval ≤ now) ∧
    can_act (some t) interval t = false ∧
    can_act (some t) interval (t + interval) = true ∧
    (∀ m : Int, m < t + interval → can_act (some t) interval m = false) := by
  refine ⟨?_, ?_, ?_, ?_⟩
  · cases last with
    | none => simp [can_act]
    | some t0 => simp [can_act]
  · simp only [can_act, decide_eq_false_iff_not]
    omega
  · simp only [can_act, decide_eq_true_eq]
    omega
  · intro m hm
    simp only [can_act, decide_eq_false_iff_not]
    omega

/-- Claim C10: a successful breakthrough at the highest defined realm
(level 10) sets the realm level to 11, which has no entry in the realm
table: the realm lookup returns none, the success payload's new_realm
field is none, the display name falls back to the unknown-realm string,
and can_breakthrough is false from then on. -/
theorem realm_cap_overflow_spec (base_rate r : ℚ) (ds da di dc dl now : Int) (u : UserProfile)
    (h10 : u.cultivation.realm_level = 10)
    (hsucc : r < calculate_breakthrough_success_rate base_rate u) :
    (perform_breakthrough base_rate r ds da di dc dl now u).1.cultivation.realm_level = 11 ∧
    get_realm_info 11 = none ∧
    (perform_breakthrough base_rate r ds da di dc dl now u).2.new_realm = none ∧
    get_realm_name (perform_breakthrough base_rate r ds da di dc dl now u).1 = "未知境界" ∧
    can_breakthrough (perform_breakthrough base_rate r ds da di dc dl now u).1 = false := by
  have h1 : (perform_breakthrough base_rate r ds da di dc dl now u).1.cultivation.realm_level = 11 := by
    simp only [perform_breakthrough, upgrade_stats_on_breakthrough, if_pos hsucc]
    (try dsimp only)
    omega
  have hnone : get_realm_info 11 = none := by decide
  refine ⟨h1, hnone, ?_, ?_, ?_⟩
  · simp only [perform_breakthrough, upgrade_stats_on_breakthrough, if_pos hsucc]
    (try dsimp only)
    rw [h10]
    decide
  · unfold get_realm_name
    rw [h1, hnone]
  · unfold can_breakthrough
    rw [h1, hnone]


/-- Witness for claim C1: the eligibility, draw and nonnegativity
hypotheses hold at the sample record with base rate 0.7, a success draw
of 0 and a failure draw of 1; the successful attempt raises the tier
from 1 to 2. -/
theorem breakthrough_transition_spec_witness :
    ((0:Int) ≤ sampleProfile.cultivation.experience ∧ can_breakthrough sampleProfile = true ∧
      (0:ℚ) < calculate_breakthrough_success_rate (7/10) sampleProfile ∧
      ¬ (1:ℚ) < calculate_breakthrough_success_rate (7/10) sampleProfile) ∧
    (perform_breakthrough (7/10) 0 2 2 2 2 1 0 sampleProfile).1.cultivation.realm_level
      = sampleProfile.cultivation.realm_level + 1 := by
  have h1 : (0:Int) ≤ sampleProfile.cultivation.experience := by decide
  have h2 : can_breakthrough sampleProfile = true := by decide
  have h3 : (0:ℚ) < calculate_breakthrough_success_rate (7/10) sampleProfile := by
    norm_num [calculate_breakthrough_success_rate, sampleProfile]
  have h4 : ¬ (1:ℚ) < calculate_breakthrough_success_rate (7/10) sampleProfile := by
    norm_num [calculate_breakthrough_success_rate, sampleProfile]
  exact ⟨⟨h1, h2, h3, h4⟩,
    (breakthrough_transition_spec (7/10) 0 1 2 2 2 2 1 0 sampleProfile h1 h2 h3 h4).1.1⟩

/-- Witness for claim C2: all nonnegativity and invariant hypotheses
hold at the sample record, sample payloads and concrete draws, and
cultivation preserves the invariant there. -/
theorem core_ops_preserve_invariants_witness :
    ((0:Int) ≤ 2 ∧ (0:Int) ≤ 1 ∧
      0 ≤ sampleGEEvent.reward_value ∧ 0 ≤ sampleGEEvent.penalty_value ∧
      0 ≤ sampleAdvEvent.reward_value ∧ 0 ≤ sampleAdvEvent.exp_gain ∧
      0 ≤ sampleAdvEvent.penalty_value ∧ (0:Int) ≤ 0 ∧ Inv sampleProfile) ∧
    Inv (perform_cultivation 10 1 sampleGEEvent 0 sampleProfile) := by
  have hds : (0:Int) ≤ 2 := by decide
  have hdl : (0:Int) ≤ 1 := by decide
  have hz : (0:Int) ≤ 0 := by decide
  have hger : (0:Int) ≤ sampleGEEvent.reward_value := by decide
  have hgep : (0:Int) ≤ sampleGEEvent.penalty_value := by decide
  have haer : (0:Int) ≤ sampleAdvEvent.reward_value := by decide
  have haee : (0:Int) ≤ sampleAdvEvent.exp_gain := by decide
  have haep : (0:Int) ≤ sampleAdvEvent.penalty_value := by decide
  have hinv : Inv sampleProfile := by
    unfold Inv
    decide
  exact ⟨⟨hds, hdl, hger, hgep, haer, haee, haep, hz, hinv⟩,
    (core_ops_preserve_invariants 10 1 (7/10) (1/2) sampleGEEvent sampleAdvEvent samplePill
      2 2 2 2 1 0 0 0 0 50 sampleProfile sampleProfile sampleProfile
      hds hds hds hds hdl hger hgep haer haee haep hz hz hz hinv hinv hinv).1.1⟩

/-- Witness for the amended claim C4: both draw hypotheses hold at the
sample mirror match (win rate 50/101), and on the attacker-wins draw the
attacker gains max(10, 50 // 10) = 10 experience. -/
theorem pvp_exp_transfer_amended_witness :
    ((0:ℚ) < pvp_win_rate (get_combat_power sampleProfile) (get_combat_power sampleProfile)
        (sampleProfile.stats.luck - sampleProfile.stats.luck) ∧
     ¬ (1:ℚ) < pvp_win_rate (get_combat_power sampleProfile) (get_combat_power sampleProfile)
        (sampleProfile.stats.luck - sampleProfile.stats.luck)) ∧
    (execute_pvp_battle 0 sampleProfile sampleProfile).1.cultivation.experience
      = sampleProfile.cultivation.experience
        + max 10 (Int.fdiv (get_combat_power sampleProfile) 10) := by
  have h1 : (0:ℚ) < pvp_win_rate (get_combat_power sampleProfile)
      (get_combat_power sampleProfile)
      (sampleProfile.stats.luck - sampleProfile.stats.luck) := by
    norm_num [pvp_win_rate, get_combat_power, calculate_combat_power, sampleProfile]
  have h2 : ¬ (1:ℚ) < pvp_win_rate (get_combat_power sampleProfile)
      (get_combat_power sampleProfile)
      (sampleProfile.stats.luck - sampleProfile.stats.luck) := by
    norm_num [pvp_win_rate, get_combat_power, calculate_combat_power, sampleProfile]
  exact ⟨⟨h1, h2⟩, (pvp_exp_transfer_amended 0 1 sampleProfile sampleProfile h1 h2).1.1⟩

/-- Witness for the amended claim C5: the nonnegativity hypotheses hold
at powers 0 and 100 and the lower clamp bound holds there. -/
theorem combat_win_probability_amended_witness :
    ((0:Int) ≤ 0 ∧ (0:Int) ≤ 100) ∧ 5/100 ≤ pvp_win_rate 0 100 3 := by
  have h1 : (0:Int) ≤ 0 := by decide
  have h2 : (0:Int) ≤ 100 := by decide
  exact ⟨⟨h1, h2⟩, (combat_win_probability_amended 0 100 3 h1 h2).2.1⟩

/-- Witness for the amended claim C6: the nonnegativity hypotheses hold
at user power 100 and monster power 50 and the probability with the
fortunate trait is bounded by 1 there. -/
theorem monster_win_rate_amended_witness :
    ((0:Int) ≤ 100 ∧ (0:Int) ≤ 50) ∧ monster_win_rate 100 50 true ≤ 1 := by
  have h1 : (0:Int) ≤ 100 := by decide
  have h2 : (0:Int) ≤ 50 := by decide
  exact ⟨⟨h1, h2⟩, (monster_win_rate_amended 100 50 h1 h2).2.2.1⟩

/-- Witness for claim C7: the base-rate range, attempt nonnegativity and
attempt ordering hypotheses hold at base 0.7 on the sample record, and
the computed rate is at most 0.95. -/
theorem breakthrough_success_rate_spec_witness :
    ((1:ℚ)/10 < 7/10 ∧ (7:ℚ)/10 < 9/10 ∧
      (0:Int) ≤ sampleProfile.cultivation.breakthrough_attempts ∧ (0:Int) ≤ 5) ∧
    calculate_breakthrough_success_rate (7/10) sampleProfile ≤ 95/100 := by
  have h1 : (1:ℚ)/10 < 7/10 := by norm_num
  have h2 : (7:ℚ)/10 < 9/10 := by norm_num
  have h3 : (0:Int) ≤ sampleProfile.cultivation.breakthrough_attempts := by decide
  have h4 : (0:Int) ≤ 5 := by decide
  exact ⟨⟨h1, h2, h3, h4⟩,
    (breakthrough_success_rate_spec (7/10) sampleProfile 0 5 h1 h2 h3 h4).2.2.1⟩

/-- Witness for claim C9: the positive-interval hypothesis holds at the
default cultivate cooldown of 1800 seconds, and the gate is closed
immediately after an action at time 0. -/
theorem cooldown_gate_spec_witness :
    (0:Int) < 1800 ∧ can_act (some 0) 1800 0 = false := by
  have h : (0:Int) < 1800 := by decide
  exact ⟨h, (cooldown_gate_spec (some 0) 1800 0 0 h).2.1⟩

/-- Witness for claim C10: the realm-10 and success-draw hypotheses hold
at the level-10 sample record with base rate 0.7 and draw 0, and
can_breakthrough is false after the overflowing breakthrough. -/
theorem realm_cap_overflow_spec_witness :
    (sampleProfileRealm10.cultivation.realm_level = 10 ∧
      (0:ℚ) < calculate_breakthrough_success_rate (7/10) sampleProfileRealm10) ∧
    can_breakthrough (perform_breakthrough (7/10) 0 2 2 2 2 1 0 sampleProfileRealm10).1 = false := by
  have h1 : sampleProfileRealm10.cultivation.realm_level = 10 := by decide
  have h2 : (0:ℚ) < calculate_breakthrough_success_rate (7/10) sampleProfileRealm10 := by
    norm_num [calculate_breakthrough_success_rate, sampleProfileRealm10, sampleProfile]
  exact ⟨⟨h1, h2⟩,
    (realm_cap_overflow_spec (7/10) 0 2 2 2 2 1 0 sampleProfileRealm10 h1 h2).2.2.2.2⟩

end Xiuxian
